import Mathlib

/-
Verification of the position-evaluation orchestrator of the chaturanga
backend (src/backend/chess_scoring.py, src/backend/app/services/chess_service.py,
src/backend/app/utils/chess_utils.py, src/backend/app/core/config.py).

The chess rules library and the engine process are external collaborators
(python-chess and Stockfish); they are modelled abstractly below, following
the interface the source consumes:
the evaluation returned by one engine invocation carries a score relative to
the side to move of the analysed position (python-chess PovScore holds a
relative score and the point of view), a principal variation, a depth and a
node count.  Rendering a PovScore with str() yields the rendering of its
relative score; the source matches that text against the pattern Cp(<int>),
so the relative centipawn score is rendered here in that Cp(+n) form, which
is the form under which the extraction in the source succeeds at all.
PovScore exposes relative, turn, white(), black(), pov(color), is_mate()
and wdl() and nothing else: in particular it has no mate() method, so the
calls score.mate() in the source raise AttributeError; the model reflects
this with an explicit error outcome on every mate-score path, uncaught
inside the analyzer exactly as in the source.
Board positions are an opaque mutable state owned by the rules library,
modelled by explicit state passing plus the documented library contract that
pop undoes push.
-/

namespace Chaturanga

/-- A raw engine score as the source reads it off python-chess: either a
centipawn value or a signed distance to mate, both relative to the side to
move of the analysed position. -/
inductive ScoreVal where
  | cp (n : Int)
  | mate (k : Int)
deriving DecidableEq, Repr

/-- python-chess PovScore: a relative score plus the point of view, the side
to move of the analysed position (true = white, as chess.WHITE is True). -/
structure PovScore where
  relative : ScoreVal
  turn : Bool
deriving DecidableEq, Repr

/-- Score.is_mate of the relative score. -/
def ScoreVal.is_mate : ScoreVal → Bool
  | .cp _ => false
  | .mate _ => true

/-- PovScore.is_mate delegates to the relative score. -/
def PovScore.is_mate (ps : PovScore) : Bool :=
  ps.relative.is_mate

/-- The exception text standing for the AttributeError raised when the
source calls score.mate() on a PovScore, which has no such method. -/
def mateAttributeError : String :=
  "AttributeError: PovScore object has no attribute mate"

/-- Python {:+} formatting of an integer: an explicit sign precedes the
digits. -/
def signedIntRepr (n : Int) : String :=
  if 0 ≤ n then "+" ++ toString n else toString n

/-- Text form of a relative score, in the Cp(+n) / Mate(+n) shape that the
regular expression of the source expects (see the header note). -/
def ScoreVal.render : ScoreVal → String
  | .cp n => "Cp(" ++ signedIntRepr n ++ ")"
  | .mate k => "Mate(" ++ signedIntRepr k ++ ")"

/-- str(score) on a PovScore renders the relative score. -/
def PovScore.render (ps : PovScore) : String :=
  ps.relative.render

/-- Digits to a natural number, most significant first. -/
def digitsToNat (ds : List Char) : Nat :=
  ds.foldl (fun a c => 10 * a + (c.toNat - 48)) 0

/-- One attempt of the regular expression Cp\((sign? digits+)\) anchored at
the head of the character list. -/
def cpMatchAt (l : List Char) : Option Int :=
  match l with
  | 'C' :: 'p' :: '(' :: rest =>
    let (sign, rest1) : Int × List Char :=
      match rest with
      | '+' :: r => (1, r)
      | '-' :: r => (-1, r)
      | r => (1, r)
    match rest1.span Char.isDigit with
    | ([], _) => none
    | (ds, ')' :: _) => some (sign * (digitsToNat ds : Int))
    | (_, _) => none
  | _ => none

/-- Leftmost match of the pattern, as re.search produces. -/
def findCp : List Char → Option Int
  | [] => none
  | c :: rest =>
    match cpMatchAt (c :: rest) with
    | some n => some n
    | none => findCp rest

/-- The centipawn extraction of the source (chess_scoring.py lines 414-425
and duplicates): re.search for Cp\(([+-]?\d+)\) over str(score), yielding
the signed integer inside, None when the pattern does not occur. -/
def extract_centipawns (s : String) : Option Int :=
  findCp s.data

/-- The slice of an engine analyse() result that the source reads: the dict
keys score, pv, depth, nodes, each possibly absent.  Principal-variation
moves are kept in their str() form directly. -/
structure EngineInfo where
  score : Option PovScore
  pv : List String
  depth : Option Int
  nodes : Option Int
deriving DecidableEq, Repr

/-- chess.engine.Limit as the source builds it: a fixed depth or a time
budget in seconds. -/
inductive EngineLimit where
  | depth (d : Int)
  | time (t : Rat)
deriving DecidableEq, Repr

/-- The ChessAnalyzer state the analysed claims touch: the engine handle
(None before start_engine) and the configured defaults.  The engine is the
external search process: position plus limit in, analysis info out, with
None standing for an invocation that raised and was caught (the source then
works with an empty info dict). -/
structure ChessAnalyzer (Pos : Type) where
  engine : Option (Pos → EngineLimit → Option EngineInfo)
  default_time : Rat := 1
  default_depth : Option Int := none

/-- The board interface of the rules library that the source consumes:
legal-move enumeration, FEN rendering, side to move, push and pop.  The
pop_push field is the documented contract of python-chess that Board.pop
restores the position that Board.push left. -/
structure ChessLib (Pos : Type) where
  legalMoves : Pos → List String
  fen : Pos → String
  turnIsWhite : Pos → Bool
  push : Pos → String → Pos
  pop : Pos → Pos
  pop_push : ∀ (b : Pos) (m : String), pop (push b m) = b

/-- Limit selection of analyze_position (chess_scoring.py lines 89-96) once
the time default is resolved: a truthy depth wins over the time budget, and
a zero depth is falsy in Python, falling back to time. -/
def ChessAnalyzer.analysisLimit {Pos : Type} (an : ChessAnalyzer Pos)
    (t : Rat) (depth_limit : Option Int) : EngineLimit :=
  match (match depth_limit with | some x => some x | none => an.default_depth) with
  | some dd => if dd == 0 then EngineLimit.time t else EngineLimit.depth dd
  | none => EngineLimit.time t

/-- ChessAnalyzer.analyze_position (chess_scoring.py lines 70-103): raises
RuntimeError when the engine was never started, otherwise resolves defaults,
builds the limit and runs one search; an engine exception is caught and
surfaces as an empty info (the inner None). -/
def ChessAnalyzer.analyze_position {Pos : Type} (an : ChessAnalyzer Pos)
    (b : Pos) (time_limit : Option Rat) (depth_limit : Option Int) :
    Except String (Option EngineInfo) :=
  match an.engine with
  | none => Except.error "Engine not started. Use start_engine() first."
  | some eng =>
    Except.ok (eng b (an.analysisLimit (time_limit.getD an.default_time) depth_limit))

/-- One per-move record of get_board_analysis (the move_data dict,
chess_scoring.py lines 394-402). -/
structure MoveData where
  move : String
  white_advantage : Option Rat
  is_mate : Bool
  mate_in : Option Int
  best_response : Option String
  depth_reached : Option Int
  nodes_searched : Option Int
deriving DecidableEq, Repr

/-- The all-null record a move keeps when its analysis yields nothing
usable (chess_scoring.py lines 394-402 defaults). -/
def null_move_data (m : String) : MoveData :=
  { move := m
    white_advantage := none
    is_mate := false
    mate_in := none
    best_response := none
    depth_reached := none
    nodes_searched := none }

/-- Body of the per-move loop of get_board_analysis (chess_scoring.py lines
404-435): with a truthy info that has a mate score, line 408 calls
score.mate(), a method PovScore does not provide, so an AttributeError is
raised before any mate field is assigned; a centipawn score stores the
extracted value divided by 100, then the first pv move, depth and nodes are
copied when present.  Without a usable score every analysis field stays
null. -/
def move_data_of (m : String) (info : Option EngineInfo) :
    Except String MoveData :=
  match info with
  | none => Except.ok (null_move_data m)
  | some i =>
    match i.score with
    | none => Except.ok (null_move_data m)
    | some sc =>
      if sc.is_mate then
        Except.error mateAttributeError
      else
        let d1 :=
          { null_move_data m with
            white_advantage :=
              (extract_centipawns sc.render).map (fun n => (n : Rat) / 100) }
        let d2 :=
          match i.pv with
          | [] => d1
          | r :: _ => { d1 with best_response := some r }
        Except.ok { d2 with
                    depth_reached := i.depth
                    nodes_searched := i.nodes }

/-- Whether an engine response avoids the mate-score crash: the response is
absent, scoreless, or carries a centipawn score. -/
def mateFree : Option EngineInfo → Bool
  | none => true
  | some i =>
    match i.score with
    | none => true
    | some sc => !sc.is_mate

/-- The record a non-crashing loop body produces, read back off
move_data_of. -/
def move_data_ok (m : String) (info : Option EngineInfo) : MoveData :=
  (move_data_of m info).toOption.getD (null_move_data m)

/-- Sort key of chess_scoring.py line 443: the white_advantage float, with
-999 substituted for a null value. -/
def sortKey (x : MoveData) : Rat :=
  x.white_advantage.getD (-999)

/-- Descending-by-key stable insertion: a record passes every record with a
strictly smaller key and stops behind keys that are greater or equal, so
records with equal keys keep their original order. -/
def insertDesc (x : MoveData) : List MoveData → List MoveData
  | [] => [x]
  | y :: ys => if sortKey y < sortKey x then x :: y :: ys else y :: insertDesc x ys

/-- list.sort(key=..., reverse=True) of chess_scoring.py line 443: the
stable descending sort by sortKey (the stable descending ordering of a list
is unique, so this insertion sort agrees with the Python library sort). -/
def sort_moves (ms : List MoveData) : List MoveData :=
  ms.foldl (fun acc x => insertDesc x acc) []

/-- The analysis_data dict of get_board_analysis (chess_scoring.py lines
377-382). -/
structure BoardAnalysis where
  fen : String
  turn : String
  total_moves : Nat
  moves : List MoveData
deriving DecidableEq, Repr

/-- The for-loop of get_board_analysis (chess_scoring.py lines 387-440) with
the board state passed explicitly: push the move, analyse the resulting
position, build its record, pop, continue.  Both the RuntimeError raised by
analyze_position on an unstarted engine and the AttributeError raised while
a mate score is processed escape between push and pop, so on those paths
the board is returned with the move still applied. -/
def ChessAnalyzer.eval_moves {Pos : Type} (an : ChessAnalyzer Pos)
    (lib : ChessLib Pos) (t : Rat) :
    Pos → List String → (Except String (List MoveData)) × Pos
  | b, [] => (Except.ok [], b)
  | b, m :: rest =>
    let b1 := lib.push b m
    match an.analyze_position b1 (some t) none with
    | Except.error e => (Except.error e, b1)
    | Except.ok info =>
      match move_data_of m info with
      | Except.error e => (Except.error e, b1)
      | Except.ok md =>
        let b2 := lib.pop b1
        match an.eval_moves lib t b2 rest with
        | (Except.error e, bf) => (Except.error e, bf)
        | (Except.ok others, bf) => (Except.ok (md :: others), bf)

/-- ChessAnalyzer.get_board_analysis (chess_scoring.py lines 362-445): FEN,
turn and legal-move count are recorded from the incoming board, an empty
move list returns immediately, otherwise every legal move is evaluated in
enumeration order and the records are sorted by descending sort key. -/
def ChessAnalyzer.get_board_analysis {Pos : Type} (an : ChessAnalyzer Pos)
    (lib : ChessLib Pos) (b : Pos) (time_limit : Option Rat) :
    (Except String BoardAnalysis) × Pos :=
  if (lib.legalMoves b).isEmpty then
    (Except.ok { fen := lib.fen b
                 turn := if lib.turnIsWhite b then "white" else "black"
                 total_moves := (lib.legalMoves b).length
                 moves := [] }, b)
  else
    match an.eval_moves lib (time_limit.getD an.default_time) b (lib.legalMoves b) with
    | (Except.error e, bf) => (Except.error e, bf)
    | (Except.ok ms, bf) =>
      (Except.ok { fen := lib.fen b
                   turn := if lib.turnIsWhite b then "white" else "black"
                   total_moves := (lib.legalMoves b).length
                   moves := sort_moves ms }, bf)

/-- The dict returned by ChessAnalyzer.get_best_move (chess_scoring.py lines
447-506), with the error key of its failure record made explicit. -/
structure BestMoveData where
  error : Option String
  best_move : Option String
  advantage : Option Rat
  is_mate : Bool
  mate_in : Option Int
  depth_reached : Option Int
  nodes_searched : Option Int
  principal_variation : List String
deriving DecidableEq, Repr

/-- ChessAnalyzer.get_best_move (chess_scoring.py lines 447-506): one direct
analysis of the incoming position; an empty info yields the error record,
otherwise best move and pv come from the pv list, a centipawn score is
normalised exactly as in the per-move loop, and a mate score reaches the
score.mate() call of line 488, raising the same AttributeError. -/
def ChessAnalyzer.get_best_move {Pos : Type} (an : ChessAnalyzer Pos)
    (b : Pos) (time_limit : Option Rat) : Except String BestMoveData :=
  let t := time_limit.getD an.default_time
  match an.analyze_position b (some t) none with
  | Except.error e => Except.error e
  | Except.ok none =>
    Except.ok { error := some "Analysis failed"
                best_move := none
                advantage := none
                is_mate := false
                mate_in := none
                depth_reached := none
                nodes_searched := none
                principal_variation := [] }
  | Except.ok (some i) =>
    let base : BestMoveData :=
      { error := none
        best_move := i.pv.head?
        advantage := none
        is_mate := false
        mate_in := none
        depth_reached := i.depth
        nodes_searched := i.nodes
        principal_variation := i.pv.take 5 }
    match i.score with
    | none => Except.ok base
    | some sc =>
      if sc.is_mate then
        Except.error mateAttributeError
      else
        Except.ok { base with
          advantage := (extract_centipawns sc.render).map (fun n => (n : Rat) / 100) }

/-- The configuration fields of app/core/config.py that the analysed claims
touch. -/
structure Settings where
  default_analysis_time : Rat
  max_analysis_time : Rat
deriving DecidableEq, Repr

/-- The defaults of app/core/config.py lines 29-30. -/
def defaultSettings : Settings :=
  { default_analysis_time := 1, max_analysis_time := 10 }

/-- The time-limit validation of chess_service.py lines 94-97 and its
duplicate at lines 168-171: a missing limit becomes the configured default,
a limit strictly above the ceiling becomes the ceiling, anything else is
used as given. -/
def validateTimeLimit (st : Settings) (time_limit : Option Rat) : Rat :=
  match time_limit with
  | none => st.default_analysis_time
  | some t => if st.max_analysis_time < t then st.max_analysis_time else t

/-- Python str.strip() over ASCII whitespace: leading and trailing
whitespace characters are removed. -/
def pyStrip (s : String) : String :=
  String.mk (((s.data.dropWhile Char.isWhitespace).reverse.dropWhile
    Char.isWhitespace).reverse)

/-- Splitter on the two-character separator used by the source, over the
underlying character list, with the characters of the current segment
accumulated in reverse.  Each leftmost occurrence of two colons ends a
segment, as Python str.split produces. -/
def splitOnColons : List Char → List Char → List (List Char)
  | [], acc => [acc.reverse]
  | [c], acc => [(c :: acc).reverse]
  | ':' :: ':' :: rest, acc => acc.reverse :: splitOnColons rest []
  | c :: rest, acc => splitOnColons rest (c :: acc)

/-- state_string.split on the two-colon separator (chess_utils.py line
23). -/
def pySplitColons (s : String) : List String :=
  (splitOnColons s.data []).map String.mk

/-- parts[0].strip() of chess_utils.py line 27. -/
def turnSeg (s : String) : String :=
  pyStrip ((pySplitColons s)[0]?.getD "")

/-- parts[1].strip() of chess_utils.py line 28. -/
def fenSeg (s : String) : String :=
  pyStrip ((pySplitColons s)[1]?.getD "")

/-- parts[2].strip() when a third segment exists, else the empty string
(chess_utils.py line 29). -/
def arrowsSeg (s : String) : String :=
  if 2 < (pySplitColons s).length then pyStrip ((pySplitColons s)[2]?.getD "") else ""

/-- parse_state_string (chess_utils.py lines 10-41).  The FEN check is the
rules-library parse, abstracted as the fenOk predicate (the source builds a
chess.Board from the segment and keeps only success or failure). -/
def parse_state_string (fenOk : String → Bool) (s : String) :
    Except String (String × String × String) :=
  if (pySplitColons s).length < 2 then
    Except.error "State string must contain at least turn and FEN separated by ::"
  else if ¬ (turnSeg s = "white" ∨ turnSeg s = "black") then
    Except.error "Turn must be white or black"
  else if fenOk (fenSeg s) = false then
    Except.error "Invalid FEN"
  else
    Except.ok (turnSeg s, fenSeg s, arrowsSeg s)

/-- The error taxonomy of the service layer: ValueError for malformed input
and RuntimeError for failed analysis, as the routes map them to 400 and
500. -/
inductive ServiceErr where
  | invalidInput (msg : String)
  | analysisFailed (msg : String)
deriving DecidableEq, Repr

/-- AnalysisResponse of app/models/chess.py lines 42-52 (the fields the
service fills; per-move records reuse the MoveData shape, which the service
copies field by field into MoveAnalysis objects). -/
structure AnalysisResponse where
  fen : String
  turn : String
  total_moves : Nat
  moves : List MoveData
  best_move : Option String
  advantage : Option Rat
  is_mate : Bool
  mate_in : Option Int
  principal_variation : List String
deriving DecidableEq, Repr

/-- BestMoveResponse of app/models/chess.py lines 55-63. -/
structure BestMoveResponse where
  best_move : Option String
  advantage : Option Rat
  is_mate : Bool
  mate_in : Option Int
  depth_reached : Option Int
  nodes_searched : Option Int
  principal_variation : List String
deriving DecidableEq, Repr

/-- ChessService.analyze_position (chess_service.py lines 75-147): parse the
record, resolve and clamp the time limit, rebuild the board from the FEN
segment, run the full-board analysis and then the aggregate best-move
analysis on the same board object, and merge both into the response.  The
board construction of the rules library is the boardOfFen parameter, and the
FEN validation inside record parsing is its success test. -/
def ChessService.analyze_position {Pos : Type} (st : Settings)
    (lib : ChessLib Pos) (boardOfFen : String → Option Pos)
    (an : ChessAnalyzer Pos) (state_string : String) (time_limit : Option Rat) :
    Except ServiceErr AnalysisResponse :=
  match parse_state_string (fun f => (boardOfFen f).isSome) state_string with
  | Except.error e => Except.error (ServiceErr.invalidInput e)
  | Except.ok (_turn, fen, _arrows) =>
    let tl := validateTimeLimit st time_limit
    match boardOfFen fen with
    | none => Except.error (ServiceErr.invalidInput "Invalid FEN")
    | some board =>
      match an.get_board_analysis lib board (some tl) with
      | (Except.error e, _bd) =>
        Except.error (ServiceErr.analysisFailed ("Analysis failed: " ++ e))
      | (Except.ok ad, board1) =>
        match an.get_best_move board1 (some tl) with
        | Except.error e =>
          Except.error (ServiceErr.analysisFailed ("Best move analysis failed: " ++ e))
        | Except.ok bmd =>
          Except.ok { fen := ad.fen
                      turn := ad.turn
                      total_moves := ad.total_moves
                      moves := ad.moves
                      best_move := bmd.best_move
                      advantage := bmd.advantage
                      is_mate := bmd.is_mate
                      mate_in := bmd.mate_in
                      principal_variation := bmd.principal_variation }

/-- ChessService.get_best_move (chess_service.py lines 149-202): same
parsing and clamping, one aggregate analysis, and a RuntimeError carrying
the error message when the analyzer returned its failure record. -/
def ChessService.get_best_move {Pos : Type} (st : Settings)
    (boardOfFen : String → Option Pos) (an : ChessAnalyzer Pos)
    (state_string : String) (time_limit : Option Rat) :
    Except ServiceErr BestMoveResponse :=
  match parse_state_string (fun f => (boardOfFen f).isSome) state_string with
  | Except.error e => Except.error (ServiceErr.invalidInput e)
  | Except.ok (_turn, fen, _arrows) =>
    let tl := validateTimeLimit st time_limit
    match boardOfFen fen with
    | none => Except.error (ServiceErr.invalidInput "Invalid FEN")
    | some board =>
      match an.get_best_move board (some tl) with
      | Except.error e =>
        Except.error (ServiceErr.analysisFailed ("Best move analysis failed: " ++ e))
      | Except.ok bmd =>
        match bmd.error with
        | some msg => Except.error (ServiceErr.analysisFailed msg)
        | none =>
          Except.ok { best_move := bmd.best_move
                      advantage := bmd.advantage
                      is_mate := bmd.is_mate
                      mate_in := bmd.mate_in
                      depth_reached := bmd.depth_reached
                      nodes_searched := bmd.nodes_searched
                      principal_variation := bmd.principal_variation }

/-- Outcome of ChessAnalyzer.start_engine: the engine handle is set, or the
process terminates through sys.exit. -/
inductive StartOutcome where
  | ok
  | sysExit (code : Nat)
deriving DecidableEq, Repr

/-- ChessAnalyzer.start_engine (chess_scoring.py lines 49-59): a missing
executable raises FileNotFoundError inside the try, a failing engine launch
or handshake raises from popen_uci; either exception is caught, printed and
answered with sys.exit(1).  The two Booleans are whether the configured path
exists on disk and whether the launch plus protocol handshake succeeds. -/
def ChessAnalyzer.start_engine (pathExists : Bool) (popenOk : Bool) : StartOutcome :=
  if pathExists then
    (if popenOk then StartOutcome.ok else StartOutcome.sysExit 1)
  else StartOutcome.sysExit 1

/-- find_stockfish_path (chess_utils.py lines 44-57) over candidate paths
paired with their on-disk existence: the first path that exists or is the
bare name stockfish is returned. -/
def find_stockfish_path (paths : List (String × Bool)) : Option (String × Bool) :=
  paths.find? (fun p => p.2 || p.1 == "stockfish")

/-- Outcome of ChessService.start_engine as its caller observes it: the
service is ready, a RuntimeError reaches the caller, or the process has been
terminated by sys.exit escaping the except-Exception handler (SystemExit is
not an Exception subclass in Python). -/
inductive ServiceStartOutcome where
  | ready
  | raisedError (msg : String)
  | processExit (code : Nat)
deriving DecidableEq, Repr

/-- Whether the outcome is an error value reported to the caller. -/
def ServiceStartOutcome.isRaisedError : ServiceStartOutcome → Bool
  | .raisedError _ => true
  | _ => false

/-- ChessService.start_engine via _initialize_analyzer (chess_service.py
lines 30-56): no candidate path found raises a RuntimeError, which the
wrapper re-raises to the caller; otherwise ChessAnalyzer.start_engine runs
on the found path, and its sys.exit(1) terminates the process. -/
def ChessService.start_engine (paths : List (String × Bool)) (popenOk : Bool) :
    ServiceStartOutcome :=
  match find_stockfish_path paths with
  | none =>
    ServiceStartOutcome.raisedError
      "Failed to start chess engine: Stockfish engine not found. Please install Stockfish and ensure it is in your PATH or current directory."
  | some (_, ex) =>
    match ChessAnalyzer.start_engine ex popenOk with
    | StartOutcome.ok => ServiceStartOutcome.ready
    | StartOutcome.sysExit c => ServiceStartOutcome.processExit c

/-- Modelled from the spec: the ScoreNormalizer rule for centipawn scores,
advantage = raw/100 when the side to move of the analysed position is white
and -(raw/100) when it is black, null for mate scores.  Stated for
comparison with the normalization the source performs. -/
def spec_white_advantage (ps : PovScore) : Option Rat :=
  match ps.relative with
  | ScoreVal.cp n => some (if ps.turn then (n : Rat) / 100 else -((n : Rat) / 100))
  | ScoreVal.mate _ => none

/-- Modelled from the spec: the mate distance converted to the absolute
convention, positive exactly when white delivers the mate; the relative
distance is positive when the mover mates, so it is kept for white to move
and negated for black to move.  Stated for comparison with the value the
source stores. -/
def spec_mate_in (ps : PovScore) : Option Int :=
  match ps.relative with
  | ScoreVal.cp _ => none
  | ScoreVal.mate k => some (if ps.turn then k else -k)

/-- The pairwise order the ranked output satisfies: descending sort keys. -/
def keyGE (a b : MoveData) : Prop :=
  sortKey b ≤ sortKey a

/-- Concrete rules-library instance over the stack of pushed moves, for
evaluating the embedding on closed inputs: the root position has one legal
move, push stacks a move, pop unstacks it. -/
def oneMoveLib : ChessLib (List String) :=
  { legalMoves := fun b => if b = [] then ["e2e4"] else []
    fen := fun b => String.intercalate " " ("base" :: b)
    turnIsWhite := fun b => b.length % 2 == 0
    push := fun b m => m :: b
    pop := fun b => b.tail
    pop_push := fun _ _ => rfl }

/-- Concrete rules-library instance whose root position has two legal
moves. -/
def twoMoveLib : ChessLib (List String) :=
  { legalMoves := fun b => if b = [] then ["e2e4", "d2d4"] else []
    fen := fun b => String.intercalate " " ("base" :: b)
    turnIsWhite := fun b => b.length % 2 == 0
    push := fun b m => m :: b
    pop := fun b => b.tail
    pop_push := fun _ _ => rfl }

/-- Concrete engine that reports the relative centipawn score +50 for the
black-to-move position reached by the single legal move, mirroring an
engine answer that favours the mover. -/
def cpEngine : List String → EngineLimit → Option EngineInfo := fun b _ =>
  if b = ["e2e4"] then
    some { score := some { relative := ScoreVal.cp 50, turn := false }
           pv := ["g8f6"]
           depth := some 12
           nodes := some 4096 }
  else none

/-- Analyzer holding cpEngine, defaults as configured. -/
def cpAnalyzer : ChessAnalyzer (List String) :=
  { engine := some cpEngine }

/-- Concrete engine that reports the relative mate score Mate(-1) for the
black-to-move position reached by the single legal move: white mates in one
ply, so the mover is being mated. -/
def mateEngine : List String → EngineLimit → Option EngineInfo := fun b _ =>
  if b = ["e2e4"] then
    some { score := some { relative := ScoreVal.mate (-1), turn := false }
           pv := ["g7g6"]
           depth := some 10
           nodes := some 2048 }
  else none

/-- Analyzer holding mateEngine. -/
def mateAnalyzer : ChessAnalyzer (List String) :=
  { engine := some mateEngine }

/-- Engine whose every invocation fails (the analyse call raises and the
source continues with an empty info). -/
def noneEngine : List String → EngineLimit → Option EngineInfo := fun _ _ => none

/-- Analyzer holding noneEngine. -/
def noneAnalyzer : ChessAnalyzer (List String) :=
  { engine := some noneEngine }

/-- Analyzer on which start_engine never ran. -/
def stoppedAnalyzer : ChessAnalyzer (List String) :=
  { engine := none }

/-- Concrete board builder accepting exactly one FEN text. -/
def oneFenBoard : String → Option (List String) := fun f =>
  if f = "somefen" then some [] else none

/-- A ranked record of a forced mate delivered by white (mate_in positive in
the absolute convention of the claim). -/
def mateRecord : MoveData :=
  { move := "d8h4"
    white_advantage := none
    is_mate := true
    mate_in := some 1
    best_response := none
    depth_reached := none
    nodes_searched := none }

/-- A ranked record carrying a finite advantage of two pawns. -/
def quietRecord : MoveData :=
  { move := "e2e4"
    white_advantage := some 2
    is_mate := false
    mate_in := none
    best_response := none
    depth_reached := none
    nodes_searched := none }

/-- The starting-position FEN used by the repository test suite. -/
def startFen : String :=
  "rnbqkbnr/pppppppp/8/8/8/8/PPPPPPPP/RNBQKBNR w KQkq - 0 1"

/- ------------------------------------------------------------------ -/
/- Helper lemmas                                                       -/
/- ------------------------------------------------------------------ -/

theorem insertDesc_perm (x : MoveData) (l : List MoveData) :
    List.Perm (insertDesc x l) (x :: l) := by
  induction l with
  | nil => simp [insertDesc]
  | cons y ys ih =>
    rw [insertDesc]
    by_cases h : sortKey y < sortKey x
    · simp [h]
    · simp only [if_neg h]
      exact (ih.cons y).trans (List.Perm.swap x y ys)

theorem sort_moves_perm_aux (l : List MoveData) :
    ∀ acc, List.Perm (l.foldl (fun a x => insertDesc x a) acc) (l ++ acc) := by
  induction l with
  | nil => intro acc; simp
  | cons x xs ih =>
    intro acc
    simp only [List.foldl_cons, List.cons_append]
    exact (ih (insertDesc x acc)).trans
      ((List.Perm.append_left xs (insertDesc_perm x acc)).trans List.perm_middle)

theorem sort_moves_perm (l : List MoveData) : List.Perm (sort_moves l) l := by
  simpa [sort_moves] using sort_moves_perm_aux l []

theorem insertDesc_pairwise (x : MoveData) (l : List MoveData)
    (h : l.Pairwise keyGE) : (insertDesc x l).Pairwise keyGE := by
  induction l with
  | nil => simp [insertDesc, keyGE]
  | cons y ys ih =>
    rcases List.pairwise_cons.mp h with ⟨hy, hys⟩
    rw [insertDesc]
    by_cases hc : sortKey y < sortKey x
    · rw [if_pos hc]
      refine List.pairwise_cons.mpr ⟨?_, h⟩
      intro z hz
      rcases List.mem_cons.mp hz with rfl | hz2
      · exact le_of_lt hc
      · exact le_trans (hy z hz2) (le_of_lt hc)
    · rw [if_neg hc]
      refine List.pairwise_cons.mpr ⟨?_, ih hys⟩
      intro z hz
      rcases List.mem_cons.mp ((insertDesc_perm x ys).mem_iff.mp hz) with rfl | hz2
      · exact le_of_not_lt hc
      · exact hy z hz2

theorem sort_moves_pairwise_aux (l : List MoveData) :
    ∀ acc, acc.Pairwise keyGE →
      (l.foldl (fun a x => insertDesc x a) acc).Pairwise keyGE := by
  induction l with
  | nil => intro acc h; simpa using h
  | cons x xs ih => intro acc h; exact ih _ (insertDesc_pairwise x acc h)

theorem sort_moves_pairwise (l : List MoveData) : (sort_moves l).Pairwise keyGE :=
  sort_moves_pairwise_aux l [] List.Pairwise.nil

theorem move_data_of_no_score (m : String) (info : Option EngineInfo)
    (h : info.bind EngineInfo.score = none) :
    move_data_of m info = Except.ok (null_move_data m) := by
  match info with
  | none => rfl
  | some i =>
    simp only [Option.some_bind] at h
    simp [move_data_of, h]

theorem move_data_ok_no_score (m : String) (info : Option EngineInfo)
    (h : info.bind EngineInfo.score = none) :
    move_data_ok m info = null_move_data m := by
  unfold move_data_ok
  rw [move_data_of_no_score m info h]
  rfl

theorem move_data_of_mateFree (m : String) (info : Option EngineInfo)
    (h : mateFree info = true) :
    move_data_of m info = Except.ok (move_data_ok m info) := by
  match info with
  | none => rfl
  | some ⟨none, ipv, idep, inod⟩ => rfl
  | some ⟨some ⟨ScoreVal.cp n, ct⟩, ipv, idep, inod⟩ => rfl
  | some ⟨some ⟨ScoreVal.mate k, ct⟩, ipv, idep, inod⟩ =>
    simp [mateFree, PovScore.is_mate, ScoreVal.is_mate] at h

theorem eval_moves_mate_free {Pos : Type} (an : ChessAnalyzer Pos)
    (lib : ChessLib Pos) (e : Pos → EngineLimit → Option EngineInfo)
    (he : an.engine = some e) (t : Rat) :
    ∀ (ms : List String) (b : Pos),
      (∀ m ∈ ms, mateFree (e (lib.push b m) (an.analysisLimit t none)) = true) →
      an.eval_moves lib t b ms =
        (Except.ok (ms.map (fun m =>
          move_data_ok m (e (lib.push b m) (an.analysisLimit t none)))), b) := by
  intro ms
  induction ms with
  | nil => intro b _; simp [ChessAnalyzer.eval_moves]
  | cons m rest ih =>
    intro b hmf
    have hhead := move_data_of_mateFree m _ (hmf m (List.mem_cons_self m rest))
    have htail : ∀ m2 ∈ rest,
        mateFree (e (lib.push b m2) (an.analysisLimit t none)) = true :=
      fun m2 hm2 => hmf m2 (List.mem_cons_of_mem m hm2)
    simp only [ChessAnalyzer.eval_moves, ChessAnalyzer.analyze_position, he,
      Option.getD_some, hhead, lib.pop_push b m, ih b htail, List.map_cons]

theorem get_board_analysis_mate_free {Pos : Type} (an : ChessAnalyzer Pos)
    (lib : ChessLib Pos) (e : Pos → EngineLimit → Option EngineInfo)
    (he : an.engine = some e) (b : Pos) (time_limit : Option Rat)
    (hmf : ∀ m ∈ lib.legalMoves b,
      mateFree (e (lib.push b m)
        (an.analysisLimit (time_limit.getD an.default_time) none)) = true) :
    an.get_board_analysis lib b time_limit =
      (Except.ok
        { fen := lib.fen b
          turn := if lib.turnIsWhite b then "white" else "black"
          total_moves := (lib.legalMoves b).length
          moves := sort_moves ((lib.legalMoves b).map (fun m =>
            move_data_ok m (e (lib.push b m)
              (an.analysisLimit (time_limit.getD an.default_time) none)))) }, b) := by
  unfold ChessAnalyzer.get_board_analysis
  by_cases hleg : (lib.legalMoves b).isEmpty
  · have h0 : lib.legalMoves b = [] := List.isEmpty_iff.mp hleg
    simp [h0, sort_moves]
  · rw [if_neg hleg, eval_moves_mate_free an lib e he _ _ b hmf]

theorem eval_moves_ok_spec {Pos : Type} (an : ChessAnalyzer Pos)
    (lib : ChessLib Pos) (t : Rat) :
    ∀ (ms : List String) (b : Pos) (r : List MoveData) (bf : Pos),
      an.eval_moves lib t b ms = (Except.ok r, bf) →
      r.length = ms.length ∧ bf = b := by
  intro ms
  induction ms with
  | nil =>
    intro b r bf h
    simp only [ChessAnalyzer.eval_moves, Prod.mk.injEq, Except.ok.injEq] at h
    obtain ⟨h1, h2⟩ := h
    simp [← h1, ← h2]
  | cons m rest ih =>
    intro b r bf h
    rw [ChessAnalyzer.eval_moves] at h
    cases ha : an.analyze_position (lib.push b m) (some t) none with
    | error e => simp [ha] at h
    | ok info =>
      simp only [ha] at h
      cases hmd : move_data_of m info with
      | error e => simp [hmd] at h
      | ok md =>
        simp only [hmd] at h
        cases hev : an.eval_moves lib t (lib.pop (lib.push b m)) rest with
        | mk r2 bf2 =>
          simp only [hev] at h
          cases r2 with
          | error e => simp at h
          | ok others =>
            simp only [Prod.mk.injEq, Except.ok.injEq] at h
            obtain ⟨h1, h2⟩ := h
            have hres := ih (lib.pop (lib.push b m)) others bf2 hev
            rw [lib.pop_push b m] at hres
            constructor
            · rw [← h1, List.length_cons, hres.1]
              rfl
            · rw [← h2, hres.2]

theorem get_board_analysis_ok_spec {Pos : Type} (an : ChessAnalyzer Pos)
    (lib : ChessLib Pos) (b : Pos) (t : Option Rat) (a : BoardAnalysis) (bf : Pos)
    (h : an.get_board_analysis lib b t = (Except.ok a, bf)) :
    bf = b ∧
    ∃ ms, a.moves = sort_moves ms ∧ ms.length = (lib.legalMoves b).length ∧
      a.total_moves = (lib.legalMoves b).length := by
  unfold ChessAnalyzer.get_board_analysis at h
  by_cases hleg : (lib.legalMoves b).isEmpty
  · rw [if_pos hleg] at h
    simp only [Prod.mk.injEq, Except.ok.injEq] at h
    obtain ⟨h1, h2⟩ := h
    refine ⟨h2.symm, [], ?_, ?_, ?_⟩
    · rw [← h1]
      rfl
    · simp [List.isEmpty_iff.mp hleg]
    · rw [← h1]
  · rw [if_neg hleg] at h
    cases hev : an.eval_moves lib (t.getD an.default_time) b (lib.legalMoves b) with
    | mk r bf2 =>
      cases r with
      | error e => simp [hev] at h
      | ok ms =>
        simp only [hev, Prod.mk.injEq, Except.ok.injEq] at h
        obtain ⟨h1, h2⟩ := h
        obtain ⟨hlen, hbf⟩ := eval_moves_ok_spec an lib _ _ _ _ _ hev
        refine ⟨by rw [← h2, hbf], ms, ?_, hlen, ?_⟩
        · rw [← h1]
        · rw [← h1]

/- ------------------------------------------------------------------ -/
/- Claim theorems                                                      -/
/- ------------------------------------------------------------------ -/

/-- C1: the full-board enumeration evaluated at the failing input of the
claim.  A black-to-move position whose engine-reported relative centipawn
score is +50 is recorded with white_advantage +0.50: the source divides the
mover-relative value by 100 without ever flipping the sign, while the spec
rule, restated by spec_white_advantage, requires -0.50 for black to move.
The third conjunct pins the sign disagreement. -/
theorem c1_centipawn_no_sign_flip :
    (cpAnalyzer.get_board_analysis oneMoveLib [] (some 1)).1 =
      Except.ok { fen := "base"
                  turn := "white"
                  total_moves := 1
                  moves := [{ move := "e2e4"
                              white_advantage := some (((50 : Int) : Rat) / 100)
                              is_mate := false
                              mate_in := none
                              best_response := some "g8f6"
                              depth_reached := some 12
                              nodes_searched := some 4096 }] } ∧
    spec_white_advantage { relative := ScoreVal.cp 50, turn := false } =
      some (-(((50 : Int) : Rat) / 100)) ∧
    (0 : Rat) < ((50 : Int) : Rat) / 100 := by
  refine ⟨rfl, rfl, by norm_num⟩

/-- C2: the full-board enumeration evaluated at the failing input of the
claim.  A mate-score engine response, here Mate(-1) in a black-to-move
position where white mates in one ply, never produces a per-move record at
all: line 408 calls score.mate() on a PovScore, which has no mate method,
and the AttributeError aborts the enumeration; the spec rule restated by
spec_mate_in would have demanded the record mate_in = +1.  Also, even the
assignment the aborted line intended would have stored the relative -1
unconverted. -/
theorem c2_mate_attribute_error :
    (mateAnalyzer.get_board_analysis oneMoveLib [] (some 1)).1 =
      Except.error mateAttributeError ∧
    spec_mate_in { relative := ScoreVal.mate (-1), turn := false } = some 1 :=
  ⟨rfl, rfl⟩

/-- C3 counterexample: a record of a forced mate delivered by white
(mate_in positive) is ranked below a record with a finite advantage, because
the sort substitutes -999 for every null advantage regardless of which side
mates; the claim requires the mate record to be ordered above every finite
advantage. -/
theorem c3_mate_sentinel_counterexample :
    sort_moves [mateRecord, quietRecord] = [quietRecord, mateRecord] ∧
    mateRecord.mate_in = some 1 ∧
    mateRecord.white_advantage = none ∧
    quietRecord.white_advantage = some 2 := by
  refine ⟨rfl, rfl, rfl, rfl⟩

/-- C3 amended: the ranked output is sorted by descending effective
advantage where the effective advantage of a record is its white_advantage
with -999 substituted for null (sortKey), so every null-advantage record,
mate or failed analysis alike, ranks below any finite advantage above -999;
adjacent pairs of both the rank function and the enumeration output satisfy
sortKey a >= sortKey b. -/
theorem c3_ranked_descending :
    (∀ ms : List MoveData, (sort_moves ms).Chain' keyGE) ∧
    (∀ (Pos : Type) (an : ChessAnalyzer Pos) (lib : ChessLib Pos)
       (e : Pos → EngineLimit → Option EngineInfo) (b : Pos) (t : Option Rat)
       (a : BoardAnalysis), an.engine = some e →
       (an.get_board_analysis lib b t).1 = Except.ok a →
       a.moves.Chain' keyGE) := by
  constructor
  · intro ms
    exact (sort_moves_pairwise ms).chain'
  · intro Pos an lib e b t a _he hok
    have hpair : an.get_board_analysis lib b t =
        (Except.ok a, (an.get_board_analysis lib b t).2) := by
      rw [← hok]
    obtain ⟨-, ms, hmoves, -, -⟩ :=
      get_board_analysis_ok_spec an lib b t a _ hpair
    rw [hmoves]
    exact (sort_moves_pairwise ms).chain'

/-- C3 witness: the amended statement applied to a concrete enumeration. -/
theorem c3_ranked_descending_witness :
    ({ fen := "base"
       turn := "white"
       total_moves := 1
       moves := [null_move_data "e2e4"] } : BoardAnalysis).moves.Chain' keyGE :=
  c3_ranked_descending.2 (List String) noneAnalyzer oneMoveLib noneEngine []
    (some 1) _ rfl rfl

/-- C4: the full-board enumeration evaluated at the failing input of the
claim.  A mate-score engine response for the single legal move makes the
loop raise the AttributeError between push and pop, so the enumeration
aborts with the move still applied: the board comes back as the pushed
stack, not the original empty stack, and its FEN differs from the FEN
before the call, violating the push/evaluate/pop restoration the claim
asserts. -/
theorem c4_mate_leaves_board_mutated :
    (mateAnalyzer.get_board_analysis oneMoveLib [] (some 1)).2 = ["e2e4"] ∧
    (["e2e4"] ≠ ([] : List String)) ∧
    oneMoveLib.fen (mateAnalyzer.get_board_analysis oneMoveLib [] (some 1)).2 ≠
      oneMoveLib.fen [] ∧
    (mateAnalyzer.get_board_analysis oneMoveLib [] (some 1)).1 =
      Except.error mateAttributeError :=
  ⟨rfl, by decide, by decide, rfl⟩

/-- C5: the full-board enumeration evaluated at the failing input of the
claim.  The position has exactly one legal move, but a mate-score engine
response for it aborts the enumeration with the uncaught AttributeError, so
no MoveEvaluation sequence is returned at all, against the claimed one
record per legal move for every engine answer. -/
theorem c5_mate_aborts_enumeration :
    (oneMoveLib.legalMoves []).length = 1 ∧
    (mateAnalyzer.get_board_analysis oneMoveLib [] (some 1)).1 =
      Except.error mateAttributeError :=
  ⟨rfl, rfl⟩

/-- C6: when the engine invocation for one move yields no usable score, that
move keeps the all-null record while the enumeration still returns one
record per legal move, with the rest of the batch answering centipawn
scores or failing too (a mate-score answer for any enumerated move aborts
the whole loop through the defect recorded at C2, independently of the
failure policy under test here); whereas in the service bestMove operation a
failed aggregate analysis surfaces as a RuntimeError carrying the failure
message of the analyzer record. -/
theorem c6_failure_policy :
    (∀ (Pos : Type) (an : ChessAnalyzer Pos) (lib : ChessLib Pos)
       (e : Pos → EngineLimit → Option EngineInfo) (b : Pos) (t : Option Rat)
       (m : String),
       an.engine = some e → m ∈ lib.legalMoves b →
       (∀ lim, (e (lib.push b m) lim).bind EngineInfo.score = none) →
       (∀ m2 ∈ lib.legalMoves b, ∀ lim, mateFree (e (lib.push b m2) lim) = true) →
       ∃ a, (an.get_board_analysis lib b t).1 = Except.ok a ∧
         null_move_data m ∈ a.moves ∧
         a.moves.length = (lib.legalMoves b).length) ∧
    (∀ (Pos : Type) (st : Settings) (boardOfFen : String → Option Pos)
       (an : ChessAnalyzer Pos) (e : Pos → EngineLimit → Option EngineInfo)
       (s tn fen ar : String) (b : Pos) (t : Option Rat),
       an.engine = some e →
       parse_state_string (fun f => (boardOfFen f).isSome) s = Except.ok (tn, fen, ar) →
       boardOfFen fen = some b →
       (∀ lim, e b lim = none) →
       ChessService.get_best_move st boardOfFen an s t =
         Except.error (ServiceErr.analysisFailed "Analysis failed")) := by
  constructor
  · intro Pos an lib e b t m he hm hfail hmf
    have hrun := get_board_analysis_mate_free an lib e he b t
      (fun m2 hm2 => hmf m2 hm2 _)
    refine ⟨_, congrArg Prod.fst hrun, ?_, ?_⟩
    · have hmem : null_move_data m ∈ (lib.legalMoves b).map (fun m =>
          move_data_ok m (e (lib.push b m)
            (an.analysisLimit (t.getD an.default_time) none))) := by
        have := move_data_ok_no_score m
          (e (lib.push b m) (an.analysisLimit (t.getD an.default_time) none))
          (hfail _)
        exact this ▸ List.mem_map_of_mem _ hm
      exact (sort_moves_perm _).mem_iff.mpr hmem
    · rw [(sort_moves_perm _).length_eq, List.length_map]
  · intro Pos st boardOfFen an e s tn fen ar b t he hparse hboard hfail
    unfold ChessService.get_best_move
    rw [hparse]
    simp only [hboard]
    unfold ChessAnalyzer.get_best_move ChessAnalyzer.analyze_position
    rw [he]
    simp [hfail]

/-- C6 witness: the two failure policies at concrete inputs. -/
theorem c6_failure_policy_witness :
    (∃ a, (noneAnalyzer.get_board_analysis twoMoveLib [] (some 1)).1 = Except.ok a ∧
       null_move_data "e2e4" ∈ a.moves ∧
       a.moves.length = (twoMoveLib.legalMoves []).length) ∧
    ChessService.get_best_move defaultSettings oneFenBoard noneAnalyzer
      "white::somefen::" (some 1) =
      Except.error (ServiceErr.analysisFailed "Analysis failed") :=
  ⟨c6_failure_policy.1 (List String) noneAnalyzer twoMoveLib noneEngine []
     (some 1) "e2e4" rfl (by decide) (fun _ => rfl) (fun _ _ _ => rfl),
   c6_failure_policy.2 (List String) defaultSettings oneFenBoard noneAnalyzer
     noneEngine "white::somefen::" "white" "somefen" "" [] (some 1) rfl rfl rfl
     (fun _ => rfl)⟩

/-- C7: the time-limit validation of both service operations maps a missing
limit to the configured default, clamps a limit strictly above the ceiling
down to the ceiling, and passes any limit at or below the ceiling through
unchanged, however small. -/
theorem c7_time_clamp (st : Settings) (t : Rat) :
    (st.max_analysis_time < t →
       validateTimeLimit st (some t) = st.max_analysis_time) ∧
    (t ≤ st.max_analysis_time → validateTimeLimit st (some t) = t) ∧
    validateTimeLimit st none = st.default_analysis_time := by
  refine ⟨fun h => ?_, fun h => ?_, rfl⟩
  · simp [validateTimeLimit, h]
  · simp [validateTimeLimit, not_lt.mpr h]

/-- C7 witness: the configured bounds applied to a limit above the ceiling,
a limit below the documented request floor, and a missing limit. -/
theorem c7_time_clamp_witness :
    validateTimeLimit defaultSettings (some 42) = defaultSettings.max_analysis_time ∧
    validateTimeLimit defaultSettings (some (1/20)) = 1/20 ∧
    validateTimeLimit defaultSettings none = defaultSettings.default_analysis_time :=
  ⟨(c7_time_clamp defaultSettings 42).1 (by norm_num [defaultSettings]),
   (c7_time_clamp defaultSettings (1/20)).2.1 (by norm_num [defaultSettings]),
   (c7_time_clamp defaultSettings 0).2.2⟩

/-- C8: record parsing fails exactly when the record has fewer than two
segments, or the stripped turn segment is neither white nor black, or the
FEN segment is rejected by the rules-library parse; and the well-formed
record white::startFen:: parses to the turn white, the same FEN and empty
arrows. -/
theorem c8_parse_failure_modes :
    (∀ (fenOk : String → Bool) (s : String),
       (∃ msg, parse_state_string fenOk s = Except.error msg) ↔
         ((pySplitColons s).length < 2 ∨
          ¬ (turnSeg s = "white" ∨ turnSeg s = "black") ∨
          fenOk (fenSeg s) = false)) ∧
    (∀ fenOk : String → Bool, fenOk startFen = true →
       parse_state_string fenOk ("white::" ++ startFen ++ "::") =
         Except.ok ("white", startFen, "")) := by
  constructor
  · intro fenOk s
    unfold parse_state_string
    split_ifs with h1 h2 h3
    · exact iff_of_true ⟨_, rfl⟩ (Or.inl h1)
    · exact iff_of_true ⟨_, rfl⟩ (Or.inr (Or.inr h3))
    · refine iff_of_false ?_ ?_
      · rintro ⟨msg, hmsg⟩
        simp at hmsg
      · push_neg
        exact ⟨not_lt.mp h1, h2, h3⟩
    · exact iff_of_true ⟨_, rfl⟩ (Or.inr (Or.inl h2))
  · intro fenOk h
    have hlen : (pySplitColons ("white::" ++ startFen ++ "::")).length = 3 := by decide
    have hturn : turnSeg ("white::" ++ startFen ++ "::") = "white" := by decide
    have hfen : fenSeg ("white::" ++ startFen ++ "::") = startFen := by decide
    have harr : arrowsSeg ("white::" ++ startFen ++ "::") = "" := by decide
    unfold parse_state_string
    rw [hlen, hturn, hfen, harr, h]
    simp

/-- C8 witness: the concrete example record parsed with an accepting FEN
test. -/
theorem c8_parse_failure_modes_witness :
    parse_state_string (fun _ => true) ("white::" ++ startFen ++ "::") =
      Except.ok ("white", startFen, "") :=
  c8_parse_failure_modes.2 (fun _ => true) rfl

/-- C9 counterexample: with an existing engine path and a failing launch or
handshake, service startup ends in process termination with exit code 1,
not in an error value reported to the caller as the claim states. -/
theorem c9_sysexit_counterexample :
    ChessService.start_engine [("./stockfish", true)] false =
      ServiceStartOutcome.processExit 1 ∧
    (ChessService.start_engine [("./stockfish", true)] false).isRaisedError = false :=
  ⟨rfl, rfl⟩

/-- C9 amended: when no candidate engine path is found the service start
raises a RuntimeError to its caller, but when a path is selected and the
analyzer-level start fails, whether because the path does not exist on disk
or the launch or handshake fails, the process terminates through
sys.exit(1) instead of reporting an error; in both cases the service never
becomes ready.  Analyzing on a session that was never started raises an
error rather than returning a result. -/
theorem c9_start_behavior :
    (∀ (paths : List (String × Bool)) (popenOk : Bool),
       find_stockfish_path paths = none →
       ChessService.start_engine paths popenOk =
         ServiceStartOutcome.raisedError
           "Failed to start chess engine: Stockfish engine not found. Please install Stockfish and ensure it is in your PATH or current directory.") ∧
    (∀ (paths : List (String × Bool)) (popenOk : Bool) (p : String) (ex : Bool),
       find_stockfish_path paths = some (p, ex) → (ex && popenOk) = false →
       ChessService.start_engine paths popenOk = ServiceStartOutcome.processExit 1) ∧
    (∀ (Pos : Type) (an : ChessAnalyzer Pos) (b : Pos) (tl : Option Rat)
       (dl : Option Int),
       an.engine = none →
       an.analyze_position b tl dl =
         Except.error "Engine not started. Use start_engine() first.") := by
  refine ⟨fun paths popenOk h => ?_, fun paths popenOk p ex h hb => ?_,
    fun Pos an b tl dl h => ?_⟩
  · unfold ChessService.start_engine
    rw [h]
  · unfold ChessService.start_engine
    rw [h]
    unfold ChessAnalyzer.start_engine
    cases ex with
    | false => simp
    | true =>
      cases popenOk with
      | false => simp
      | true => simp at hb
  · unfold ChessAnalyzer.analyze_position
    rw [h]

/-- C9 witness: the amended start behaviors and the unstarted-session error
at concrete inputs. -/
theorem c9_start_behavior_witness :
    ChessService.start_engine [("./stockfish", false)] true =
      ServiceStartOutcome.raisedError
        "Failed to start chess engine: Stockfish engine not found. Please install Stockfish and ensure it is in your PATH or current directory." ∧
    ChessService.start_engine [("/usr/bin/stockfish", true)] false =
      ServiceStartOutcome.processExit 1 ∧
    stoppedAnalyzer.analyze_position [] none none =
      Except.error "Engine not started. Use start_engine() first." :=
  ⟨c9_start_behavior.1 [("./stockfish", false)] true rfl,
   c9_start_behavior.2.1 [("/usr/bin/stockfish", true)] false "/usr/bin/stockfish"
     true rfl rfl,
   c9_start_behavior.2.2 (List String) stoppedAnalyzer [] none none rfl⟩

/-- C10: two well-formed records that parse to the same FEN and arrows but
opposite turn tokens produce identical analyzePosition and bestMove results:
the turn token is validated during parsing and never consumed afterwards,
the side to move coming only from the FEN. -/
theorem c10_turn_token_ignored {Pos : Type} (st : Settings) (lib : ChessLib Pos)
    (boardOfFen : String → Option Pos) (an : ChessAnalyzer Pos)
    (s1 s2 f a : String) (t : Option Rat)
    (h1 : parse_state_string (fun x => (boardOfFen x).isSome) s1 =
      Except.ok ("white", f, a))
    (h2 : parse_state_string (fun x => (boardOfFen x).isSome) s2 =
      Except.ok ("black", f, a)) :
    ChessService.analyze_position st lib boardOfFen an s1 t =
      ChessService.analyze_position st lib boardOfFen an s2 t ∧
    ChessService.get_best_move st boardOfFen an s1 t =
      ChessService.get_best_move st boardOfFen an s2 t := by
  constructor
  · unfold ChessService.analyze_position
    rw [h1, h2]
  · unfold ChessService.get_best_move
    rw [h1, h2]

/-- C10 witness: concrete records differing only in the turn token. -/
theorem c10_turn_token_ignored_witness :
    ChessService.analyze_position defaultSettings oneMoveLib oneFenBoard
      cpAnalyzer "white::somefen::" (some 1) =
      ChessService.analyze_position defaultSettings oneMoveLib oneFenBoard
        cpAnalyzer "black::somefen::" (some 1) ∧
    ChessService.get_best_move defaultSettings oneFenBoard cpAnalyzer
      "white::somefen::" (some 1) =
      ChessService.get_best_move defaultSettings oneFenBoard cpAnalyzer
        "black::somefen::" (some 1) :=
  c10_turn_token_ignored defaultSettings oneMoveLib oneFenBoard cpAnalyzer
    "white::somefen::" "black::somefen::" "somefen" "" (some 1) rfl rfl

end Chaturanga
